import Mathlib

/-!
Verification of the multi-provider photo/video personality-analysis
orchestration server (`src/server/index.ts`).

The TypeScript source is shallowly embedded: duck-typed JSON values become
the inductive type `JSVal`, JavaScript truthiness/field access are modelled
explicitly, fallible code returns `Except`, and the host primitive
`JSON.parse` is passed in as an explicit `String → Option JSVal` parameter
wherever the source calls it.  JavaScript numbers are modelled as rationals;
none of the verified properties depend on float rounding or `NaN`.
-/

namespace PhotoAnalysis

/-- A JavaScript/JSON value, as manipulated by the duck-typed server code.
Object fields keep insertion order, as JS objects do. -/
inductive JSVal where
  | vundefined
  | vnull
  | vbool (b : Bool)
  | vnum (q : ℚ)
  | vstr (s : String)
  | varr (elems : List JSVal)
  | vobj (fields : List (String × JSVal))
deriving Repr

/-- JavaScript truthiness: `undefined`, `null`, `false`, `0`, and `""` are
falsy; every object and array is truthy. -/
def truthy : JSVal → Bool
  | .vundefined => false
  | .vnull => false
  | .vbool b => b
  | .vnum q => q != 0
  | .vstr s => s != ""
  | .varr _ => true
  | .vobj _ => true

/-- Property read `v[k]`, with the semantics of optional chaining `v?.[k]`:
reading a field of a non-object (or a missing field) yields `undefined`. -/
def getField : JSVal → String → JSVal
  | .vobj fields, k =>
    match fields.lookup k with
    | some v => v
    | none => .vundefined
  | _, _ => .vundefined

/-- Property write `v[k] = x`: updates an existing binding in place,
otherwise appends (JS insertion order). Writes to non-objects are dropped. -/
def setField (v : JSVal) (k : String) (x : JSVal) : JSVal :=
  match v with
  | .vobj fields =>
    if (fields.lookup k).isSome then
      .vobj (fields.map (fun p => if p.1 = k then (k, x) else p))
    else
      .vobj (fields ++ [(k, x)])
  | w => w

/-- JavaScript `a || b`. -/
def jsOr (a b : JSVal) : JSVal := if truthy a then a else b

/-! ## Assessment validator (`validateCoreAssessment`, index.ts 3997-4026) -/

/-- The 20 required core-assessment field names (index.ts 3998-4004). -/
def coreQuestions : List String :=
  [ "core_motivation", "confidence_level", "self_acceptance", "intelligence_level",
    "creativity_assessment", "stress_handling", "trustworthiness", "authenticity",
    "ambition_level", "insecurities", "social_validation", "independence",
    "communication_style", "criticism_response", "outlook", "humor_sense",
    "treatment_of_others", "consistency", "hidden_strengths", "hidden_weaknesses" ]

/-- Characters stripped by JavaScript `String.prototype.trim` (modelled over
the ASCII whitespace the analysis strings contain). -/
def trimChars (cs : List Char) : List Char :=
  ((cs.dropWhile Char.isWhitespace).reverse.dropWhile Char.isWhitespace).reverse

/-- Model of JavaScript `s.trim()`. -/
def jsTrim (s : String) : String := ⟨trimChars s.data⟩

/-- A JavaScript runtime exception distinct from a thrown `Error` object.
`typeError` models `TypeError: x.trim is not a function`. -/
inductive JsErr where
  | typeError
deriving Repr, DecidableEq

/-- One iteration of the validator loop (index.ts 4014):
`!coreAssessment[question] || coreAssessment[question].trim().length < 10`.
Returns `true` when the field counts as missing.  Calling `.trim()` on a
truthy non-string value raises a `TypeError`. -/
def checkField (v : JSVal) : Except JsErr Bool :=
  if truthy v = false then .ok true
  else
    match v with
    | .vstr s => .ok (decide ((jsTrim s).length < 10))
    | _ => .error .typeError

/-- The validator loop (index.ts 4012-4017): walk `coreQuestions` in order,
pushing each missing field; a `TypeError` aborts the loop. -/
def collectMissing : List String → JSVal → Except JsErr (List String)
  | [], _ => .ok []
  | q :: qs, core => do
    let m ← checkField (getField core q)
    let rest ← collectMissing qs core
    pure (if m then q :: rest else rest)

/-- Outcome of `validateCoreAssessment` when it does not return normally:
the two thrown `Error`s and the unhandled `TypeError`. -/
inductive ValidationError where
  | noCore (personLabel : String)
  | incomplete (personLabel : String) (missing : List String)
  | typeError
deriving Repr, DecidableEq

/-- Message of the thrown `Error` (index.ts 4009 and 4021). -/
def validationErrorMessage : ValidationError → String
  | .noCore label =>
    "AI model failed to provide core psychological assessment for " ++ label ++
      ". Please regenerate the analysis."
  | .incomplete label missing =>
    "AI model provided incomplete analysis for " ++ label ++
      ". Missing substantive answers for: " ++ String.intercalate ", " missing ++
      ". Please regenerate the analysis with a different model or try again."
  | .typeError => "TypeError"

/-- The value the validator inspects (index.ts 4006):
`analysisResult.detailed_analysis?.core_psychological_assessment`. -/
def coreSection (assessment : JSVal) : JSVal :=
  getField (getField assessment "detailed_analysis") "core_psychological_assessment"

/-- `validateCoreAssessment(analysisResult, personLabel)` (index.ts 3997-4026):
reads `analysisResult.detailed_analysis?.core_psychological_assessment`,
throws when it is falsy, collects missing fields, throws when any are
missing, and otherwise returns `true`. -/
def validateCoreAssessment (analysisResult : JSVal) (personLabel : String) :
    Except ValidationError Bool :=
  if truthy (coreSection analysisResult) = false then .error (.noCore personLabel)
  else
    match collectMissing coreQuestions (coreSection analysisResult) with
    | .error _ => .error .typeError
    | .ok missing =>
      if missing.isEmpty then .ok true
      else .error (.incomplete personLabel missing)

/-- Values on which the validator's missing-field rule is the one the spec
states: absent, `null`, or a string. -/
def isStringLike : JSVal → Bool
  | .vundefined => true
  | .vnull => true
  | .vstr _ => true
  | _ => false

/-- The spec's rule for a single field: absent, null, or trimmed length
below 10. -/
def fieldMissing (v : JSVal) : Bool :=
  match v with
  | .vstr s => decide ((jsTrim s).length < 10)
  | _ => !truthy v

/-- The fields the spec's threshold rule classifies as missing: absent,
null, or trimmed length below 10 characters. -/
def specMissingFields (assessment : JSVal) : List String :=
  coreQuestions.filter (fun q => fieldMissing (getField (coreSection assessment) q))

/-- A fully answered assessment: every core field holds a substantive
(≥ 10 trimmed characters) string. -/
def fullAssessment : JSVal :=
  .vobj [("detailed_analysis", .vobj [("core_psychological_assessment",
    .vobj (coreQuestions.map (fun q => (q, JSVal.vstr "a substantive evidence-based answer"))))])]

/-- An assessment answering everything except `outlook` (empty) and
`consistency` (too short after trimming). -/
def partialAssessment : JSVal :=
  .vobj [("detailed_analysis", .vobj [("core_psychological_assessment",
    .vobj ((coreQuestions.map (fun q => (q, JSVal.vstr "a substantive evidence-based answer"))).map
      (fun p => if p.1 = "outlook" then ("outlook", JSVal.vnull)
                else if p.1 = "consistency" then ("consistency", JSVal.vstr "  short  ")
                else p)))])]

/-- An assessment whose first required field is a (truthy) number rather
than a string; every other field is a substantive string. -/
def nonStringAssessment : JSVal :=
  .vobj [("detailed_analysis", .vobj [("core_psychological_assessment",
    .vobj (("core_motivation", JSVal.vnum 5) ::
      (coreQuestions.drop 1).map (fun q => (q, JSVal.vstr "a substantive evidence-based answer"))))])]

/-! ## Multi-subject synthesis
(`getEnhancedPersonalityInsights`, multi-person branch, index.ts 4060-4457) -/

/-- The minimal profile returned by the per-person catch block
(index.ts 4378-4398). -/
def minimalPersonProfile (personLabel : String) (personIndex : JSVal) : JSVal :=
  .vobj
    [ ("summary", .vstr ("Analysis of " ++ personLabel ++ " could not be completed.")),
      ("detailed_analysis", .vobj
        [ ("personality_core", .vstr "Analysis unavailable for this individual."),
          ("thought_patterns", .vstr "Analysis unavailable."),
          ("cognitive_style", .vstr "Analysis unavailable."),
          ("professional_insights", .vstr "Analysis unavailable."),
          ("relationships", .vobj
            [ ("current_status", .vstr "Analysis unavailable."),
              ("parental_status", .vstr "Analysis unavailable."),
              ("ideal_partner", .vstr "Analysis unavailable.") ]),
          ("growth_areas", .vobj
            [ ("strengths", .varr [.vstr "Unknown"]),
              ("challenges", .varr [.vstr "Unknown"]),
              ("development_path", .vstr "Analysis unavailable.") ]) ]),
      ("personLabel", .vstr personLabel),
      ("personIndex", personIndex) ]

/-- One per-person synthesis task (index.ts 4073-4404).  `personLabel`,
`positionInImage` and `boundingBox` come from the integrator's person
object; `llmContent` is `response.choices[0]?.message.content` of the
OpenAI call, `none` when the client is absent or the call rejected. -/
structure PersonCall where
  personLabel : String
  positionInImage : JSVal
  boundingBox : JSVal
  llmContent : Option String

/-- Body of one per-person promise (index.ts 4342-4399): call OpenAI,
`JSON.parse` the content (`|| "{}"`), run `validateCoreAssessment`, and on
success return the result with `personLabel`/`personIndex`/`boundingBox`
attached.  Every failure — absent client, rejected call, parse error, or a
thrown validation error — is caught at index.ts 4375 and replaced by
`minimalPersonProfile`.  The host `JSON.parse` is the `parse` parameter. -/
def analyzePersonProfile (p : PersonCall) (parse : String → Option JSVal) : JSVal :=
  match p.llmContent with
  | none => minimalPersonProfile p.personLabel p.positionInImage
  | some content =>
    match parse (if content = "" then "\x7b\x7d" else content) with
    | none => minimalPersonProfile p.personLabel p.positionInImage
    | some analysisResult =>
      match validateCoreAssessment analysisResult p.personLabel with
      | .error _ => minimalPersonProfile p.personLabel p.positionInImage
      | .ok _ =>
        setField (setField (setField analysisResult
          "personLabel" (.vstr p.personLabel))
          "personIndex" p.positionInImage)
          "boundingBox" p.boundingBox

/-- `individualProfiles` after `Promise.all` (index.ts 4406-4410).  The
outer per-person catch that would return `null` (index.ts 4400-4403) can
only fire on a failure of prompt construction, which cannot fail in this
model, so the `filter(result !== null)` keeps every entry. -/
def multiPersonProfiles (people : List PersonCall) (parse : String → Option JSVal) :
    List JSVal :=
  people.map (fun p => analyzePersonProfile p parse)

/-! ## Single-subject multi-model synthesis (index.ts 4610-4781) -/

/-- Outcome of one entry of `Promise.allSettled`. -/
inductive Settled (α : Type) where
  | fulfilled (value : α)
  | rejected
deriving Repr

/-- One Anthropic content block (`{type, text}`). -/
structure ContentBlock where
  type : String
  text : String
deriving Repr, DecidableEq

/-- A fulfilled Anthropic response: its `content` array. -/
structure AnthropicResp where
  content : List ContentBlock
deriving Repr, DecidableEq

/-- A fulfilled OpenAI response, reduced to
`choices[0]?.message.content` (`none` when absent). -/
structure OpenAIResp where
  content : Option String
deriving Repr, DecidableEq

/-- A fulfilled Perplexity response, as built by `perplexity.query`
(index.ts 238-240): `{text}`. -/
structure PerplexityResp where
  text : String
deriving Repr, DecidableEq

/-- Result selection over the three settled outcomes (index.ts 4671-4737).
An `else if` chain on settlement status: Anthropic first, then OpenAI.
The branch for a fulfilled Perplexity result (index.ts 4698-4717) reads
`anthropicResult.value` — `undefined`, since that chain arm is reached only
when the Anthropic promise rejected — so `anthropicResponse.content` throws
a `TypeError` that the branch's own catch swallows, and the duplicate
Perplexity branch at index.ts 4721 is unreachable: `finalInsights` stays
`{}` whatever the Perplexity payload was.  A parse failure in the Anthropic
or OpenAI branch is likewise caught locally, leaving `finalInsights = {}`. -/
def selectFinalInsights (anthropicResult : Settled AnthropicResp)
    (openaiResult : Settled OpenAIResp) (perplexityResult : Settled PerplexityResp)
    (parse : String → Option JSVal) : JSVal :=
  match anthropicResult with
  | .fulfilled a =>
    match a.content with
    | [] => .vobj []
    | c :: _ =>
      match parse (if c.text = "" then "\x7b\x7d" else c.text) with
      | none => .vobj []
      | some v => v
  | .rejected =>
    match openaiResult with
    | .fulfilled o =>
      match parse (match o.content with
                   | some s => if s = "" then "\x7b\x7d" else s
                   | none => "\x7b\x7d") with
      | none => .vobj []
      | some v => v
    | .rejected =>
      match perplexityResult with
      | .fulfilled _ => .vobj []
      | .rejected => .vobj []

/-- `Object.keys(v).length` as used by the emptiness test at index.ts 4740. -/
def objKeysCount : JSVal → Nat
  | .vobj fields => fields.length
  | .varr elems => elems.length
  | .vstr s => s.length
  | _ => 0

/-- `!finalInsights || Object.keys(finalInsights).length === 0`
(index.ts 4740). -/
def isEmptyInsights (v : JSVal) : Bool := !truthy v || objKeysCount v == 0

/-- The basic fallback structure assigned when every service failed
(index.ts 4742-4760).  It has no `core_psychological_assessment`, so the
validator always rejects it. -/
def basicFallbackInsights : JSVal :=
  .vobj
    [ ("summary", .vstr "Analysis could not be completed fully."),
      ("detailed_analysis", .vobj
        [ ("personality_core", .vstr "The analysis could not be completed at this time. Please try again with a clearer image or video."),
          ("thought_patterns", .vstr "Analysis unavailable."),
          ("cognitive_style", .vstr "Analysis unavailable."),
          ("professional_insights", .vstr "Analysis unavailable."),
          ("relationships", .vobj
            [ ("current_status", .vstr "Analysis unavailable."),
              ("parental_status", .vstr "Analysis unavailable."),
              ("ideal_partner", .vstr "Analysis unavailable.") ]),
          ("growth_areas", .vobj
            [ ("strengths", .varr [.vstr "Determination"]),
              ("challenges", .varr [.vstr "Technical issues"]),
              ("development_path", .vstr "Try again with a clearer image or video.") ]) ]) ]

/-- The insights value handed to `validateCoreAssessment` (index.ts
4739-4764): the selected result, or the basic fallback when selection left
it empty. -/
def singleSubjectFinalInsights (aR : Settled AnthropicResp) (oR : Settled OpenAIResp)
    (pR : Settled PerplexityResp) (parse : String → Option JSVal) : JSVal :=
  let selected := selectFinalInsights aR oR pR parse
  if isEmptyInsights selected then basicFallbackInsights else selected

/-- Message of the error rethrown by the synthesis-level catch
(index.ts 4777-4780), which replaces any error thrown inside the single-
subject branch — including the validator's ones. -/
def singleSynthesisErrorMessage : String :=
  "Failed to generate personality insights. Please try again."

/-- The `provider_info` note added when several services worked
(index.ts 4767-4769). -/
def multiProviderNote : String :=
  "This analysis used multiple AI providers for maximum depth and accuracy."

/-- The single-subject branch of `getEnhancedPersonalityInsights` from
result selection to return (index.ts 4669-4781): select, fall back when
empty, validate (a thrown validation error is re-thrown by the catch at
4777 with `singleSynthesisErrorMessage`), optionally stamp
`provider_info`, and wrap as `{peopleCount, individualProfiles,
detailed_analysis}`. -/
def singleSubjectSynthesis (aR : Settled AnthropicResp) (oR : Settled OpenAIResp)
    (pR : Settled PerplexityResp) (parse : String → Option JSVal) :
    Except String JSVal :=
  let finalInsights := singleSubjectFinalInsights aR oR pR parse
  match validateCoreAssessment finalInsights "Subject" with
  | .error _ => .error singleSynthesisErrorMessage
  | .ok _ =>
    let enhanced :=
      match oR with
      | .fulfilled _ =>
        match aR, pR with
        | .rejected, .rejected => finalInsights
        | _, _ => setField finalInsights "provider_info" (.vstr multiProviderNote)
      | .rejected => finalInsights
    .ok (.vobj
      [ ("peopleCount", .vnum 1),
        ("individualProfiles", .varr [enhanced]),
        ("detailed_analysis", jsOr (getField enhanced "detailed_analysis") (.vobj [])) ])

/-- The `/api/analyze` catch-all (index.ts 3079-3086): every thrown `Error`
becomes an HTTP **400** response whose body carries the error message; a
normal return is a 200 JSON response. -/
def analyzeRouteResponse {α : Type} (r : Except String α) : Nat × Option String :=
  match r with
  | .ok _ => (200, none)
  | .error msg => (400, some msg)

/-- `charsStartWith pat cs`: `pat` is an initial segment of `cs`. -/
def charsStartWith : List Char → List Char → Bool
  | [], _ => true
  | _ :: _, [] => false
  | a :: as, b :: bs => a == b && charsStartWith as bs

/-- `charsOccur pat cs`: `pat` occurs contiguously in `cs`. -/
def charsOccur (pat : List Char) : List Char → Bool
  | [] => charsStartWith pat []
  | c :: cs => charsStartWith pat (c :: cs) || charsOccur pat cs

/-- Substring test used to state message-content properties. -/
def containsSubstr (s pat : String) : Bool := charsOccur pat.data s.data

/-! ## Video segment preprocessing (`/api/analyze` video branch, index.ts 2715-2821) -/

/-- `Math.min` on the (non-NaN) rationals involved. -/
def mathMin (a b : ℚ) : ℚ := if a ≤ b then a else b

/-- `Math.max`. -/
def mathMax (a b : ℚ) : ℚ := if a ≤ b then b else a

/-- The clamp at index.ts 2733:
`Math.min(videoSegmentDuration, videoDuration - videoSegmentStart)`. -/
def actualSegmentDuration (videoSegmentStart videoSegmentDuration videoDuration : ℚ) : ℚ :=
  mathMin videoSegmentDuration (videoDuration - videoSegmentStart)

/-- Message of the error rethrown by the video-branch catch
(index.ts 2818-2821), which replaces the inner "Invalid segment" error. -/
def videoProcessingFailedMessage : String :=
  "Failed to process video. Please try a smaller video file or an image."

/-- index.ts 2733-2740 with the surrounding catch: compute the clamped
duration, throw when it is non-positive (the catch rethrows with
`videoProcessingFailedMessage` before any segment is extracted), and
otherwise hand the clamped duration to `extractVideoSegment`. -/
def videoSegmentStep (videoSegmentStart videoSegmentDuration videoDuration : ℚ) :
    Except String ℚ :=
  let actualDuration := actualSegmentDuration videoSegmentStart videoSegmentDuration videoDuration
  if actualDuration ≤ 0 then .error videoProcessingFailedMessage
  else .ok actualDuration

/-! ## Multi-service face-result integration (index.ts 478-778) -/

/-- `getTopEmotion` (index.ts 783-797): label of the emotion with the
largest score; ties and an empty or falsy map give "neutral".  The
emotion maps the callers pass hold only numeric scores. -/
def getTopEmotion (emotions : JSVal) : JSVal :=
  if truthy emotions = false then .vstr "neutral"
  else
    match emotions with
    | .vobj fields =>
      .vstr (fields.foldl
        (fun (acc : String × ℚ) p =>
          match p.2 with
          | .vnum q => if acc.2 < q then (p.1, q) else acc
          | _ => acc)
        ("neutral", 0)).1
    | _ => .vstr "neutral"

/-- `getTopEmotionFromAzure` (index.ts 802-817): same algorithm over the
Azure emotion map. -/
def getTopEmotionFromAzure (emotions : JSVal) : JSVal :=
  if truthy emotions = false then .vstr "neutral"
  else
    match emotions with
    | .vobj fields =>
      .vstr (fields.foldl
        (fun (acc : String × ℚ) p =>
          match p.2 with
          | .vnum q => if acc.2 < q then (p.1, q) else acc
          | _ => acc)
        ("neutral", 0)).1
    | _ => .vstr "neutral"

/-- `calculateEmotionalStability` (index.ts 821-827).  The emotion maps
passed by the integrator are objects with numeric values; the JS `NaN`
produced by an empty map does not occur in the claims checked here. -/
def calculateEmotionalStability (emotions : JSVal) : ℚ :=
  if truthy emotions = false then 50
  else
    match emotions with
    | .vobj fields =>
      let vals := fields.map (fun p => match p.2 with | .vnum q => q | _ => 0)
      let variance := (vals.foldl (fun sum val => sum + (val - 50) ^ 2) 0) / (vals.length : ℚ)
      mathMax 0 (mathMin 100 (100 - variance))
    | _ => 50

/-- Strict equality `v === 's'` against a string literal. -/
def jsEqStr (v : JSVal) (s : String) : Bool :=
  match v with
  | .vstr t => t == s
  | _ => false

/-- A string-or-default coercion for template literals over values that are
strings whenever truthy (`${x || 'Unknown'}`). -/
def strOrElse (v : JSVal) (dflt : String) : String :=
  match v with
  | .vstr s => if s = "" then dflt else s
  | _ => dflt

/-- The `integratedAnalysis` of a Face++-seeded person (index.ts 656-674). -/
def faceppIntegratedAnalysis (face : JSVal) : JSVal :=
  let attrs := getField face "attributes"
  .vobj
    [ ("age", jsOr (getField (getField attrs "age") "value") .vnull),
      ("gender", jsOr (getField (getField attrs "gender") "value") (.vstr "unknown")),
      ("emotions", .vobj
        [ ("primary", getTopEmotion (getField attrs "emotion")),
          ("detailed", jsOr (getField attrs "emotion") (.vobj [])) ]),
      ("facial_features", .vobj
        [ ("smiling", jsOr (getField (getField attrs "smiling") "value") (.vnum 0)),
          ("glasses", jsOr (getField (getField attrs "glass") "value") (.vstr "none")),
          ("facial_hair", jsOr (getField (getField attrs "beard") "value") (.vnum 0)),
          ("ethnicity", jsOr (getField (getField attrs "ethnicity") "value") (.vstr "unknown")) ]),
      ("psychological_indicators", .vobj
        [ ("confidence_level",
            jsOr (getField (getField attrs "beauty") "male_score")
              (jsOr (getField (getField attrs "beauty") "female_score") (.vnum 50))),
          ("emotional_stability", .vnum (calculateEmotionalStability (getField attrs "emotion"))),
          ("social_openness", jsOr (getField (getField attrs "smiling") "value") (.vnum 0)) ]) ]

/-- One Face++-seeded person (index.ts 640-682), including the label
update at 677-680. -/
def faceppPerson (i : Nat) (face : JSVal) : JSVal :=
  let ia := faceppIntegratedAnalysis face
  let label :=
    if truthy (getField ia "gender") then
      "Person " ++ toString (i + 1) ++ " (" ++
        (if jsEqStr (getField ia "gender") "Male" then "Male" else "Female") ++ ")"
    else "Person " ++ toString (i + 1) ++ " (Male)"
  .vobj
    [ ("personIndex", .vnum ((i : ℚ) + 1)),
      ("personLabel", .vstr label),
      ("boundingBox", getField face "face_rectangle"),
      ("multiServiceData", .vobj
        [ ("facepp", face), ("azure_face", .vnull),
          ("google_vision", .vnull), ("aws_rekognition", .vnull) ]),
      ("integratedAnalysis", ia) ]

/-- First integration stage (index.ts 638-684): seed people from Face++
when it returned a non-empty `faces` array. -/
def faceppSeeds (ar : JSVal) (maxPeople : Nat) : List JSVal :=
  let facepp := getField ar "facepp"
  if truthy facepp && truthy (getField facepp "faces") then
    match getField facepp "faces" with
    | .varr faces =>
      if 0 < faces.length then (faces.take maxPeople).mapIdx faceppPerson else []
    | _ => []
  else []

/-- The `azure_face` slot viewed as the array the integrator loops over
(`Array.isArray` guard, index.ts 687 and 731). -/
def azureArray (ar : JSVal) : List JSVal :=
  match getField ar "azure_face" with
  | .varr xs => xs
  | _ => []

/-- The Google Vision `faceAnnotations` array (index.ts 709 and 749). -/
def googleAnnotations (ar : JSVal) : List JSVal :=
  match getField (getField ar "google_vision") "faceAnnotations" with
  | .varr xs => xs
  | _ => []

/-- Azure enhancement of Face++-seeded people (index.ts 687-706). -/
def azureEnhance (people : List JSVal) (azureFaces : List JSVal) : List JSVal :=
  people.mapIdx (fun i person =>
    match azureFaces[i]? with
    | none => person
    | some azureFace =>
      let p1 := setField person "multiServiceData"
        (setField (getField person "multiServiceData") "azure_face" azureFace)
      if truthy (getField azureFace "faceAttributes") then
        setField p1 "integratedAnalysis"
          (setField (getField p1 "integratedAnalysis") "azure_insights" (.vobj
            [ ("age", getField (getField azureFace "faceAttributes") "age"),
              ("emotion", getField (getField azureFace "faceAttributes") "emotion"),
              ("facial_hair", getField (getField azureFace "faceAttributes") "facialHair"),
              ("glasses", getField (getField azureFace "faceAttributes") "glasses"),
              ("makeup", getField (getField azureFace "faceAttributes") "makeup"),
              ("accessories", getField (getField azureFace "faceAttributes") "accessories") ]))
      else p1)

/-- Google Vision enhancement of seeded people (index.ts 709-726). -/
def googleEnhance (people : List JSVal) (googleFaces : List JSVal) : List JSVal :=
  people.mapIdx (fun i person =>
    match googleFaces[i]? with
    | none => person
    | some googleFace =>
      let p1 := setField person "multiServiceData"
        (setField (getField person "multiServiceData") "google_vision" googleFace)
      setField p1 "integratedAnalysis"
        (setField (getField p1 "integratedAnalysis") "google_insights" (.vobj
          [ ("joy_likelihood", getField googleFace "joyLikelihood"),
            ("sorrow_likelihood", getField googleFace "sorrowLikelihood"),
            ("anger_likelihood", getField googleFace "angerLikelihood"),
            ("surprise_likelihood", getField googleFace "surpriseLikelihood"),
            ("detection_confidence", getField googleFace "detectionConfidence"),
            ("landmarks", .vnum
              ((match getField googleFace "landmarks" with
                | .varr l => l.length
                | _ => 0) : ℚ)) ])))

/-- index.ts 687: guard and application of the Azure enhancement. -/
def azureEnhanceStep (ar : JSVal) (people : List JSVal) : List JSVal :=
  if 0 < (azureArray ar).length then azureEnhance people (azureArray ar) else people

/-- index.ts 709: guard and application of the Google enhancement. -/
def googleEnhanceStep (ar : JSVal) (people : List JSVal) : List JSVal :=
  if truthy (getField ar "google_vision")
      && truthy (getField (getField ar "google_vision") "faceAnnotations") then
    googleEnhance people (googleAnnotations ar)
  else people

/-- One Azure-seeded fallback person (index.ts 732-745). -/
def azureFallbackPerson (i : Nat) (azureFace : JSVal) : JSVal :=
  let fa := getField azureFace "faceAttributes"
  .vobj
    [ ("personIndex", .vnum ((i : ℚ) + 1)),
      ("personLabel", .vstr ("Person " ++ toString (i + 1) ++ " (" ++
        strOrElse (jsOr (getField fa "gender") (.vstr "Unknown")) "Unknown" ++ ")")),
      ("boundingBox", getField azureFace "faceRectangle"),
      ("multiServiceData", .vobj
        [ ("azure_face", azureFace), ("facepp", .vnull),
          ("google_vision", .vnull), ("aws_rekognition", .vnull) ]),
      ("integratedAnalysis", .vobj
        [ ("age", getField fa "age"),
          ("gender", getField fa "gender"),
          ("emotions", .vobj
            [ ("primary", getTopEmotionFromAzure (getField fa "emotion")),
              ("detailed", getField fa "emotion") ]),
          ("psychological_indicators", .vobj
            [ ("confidence_level", .vnum 70),
              ("emotional_stability", .vnum 50),
              ("social_openness", jsOr (getField fa "smile") (.vnum 0)) ]) ]) ]

/-- Numeric coercion for arithmetic on provider fields
(`detectionConfidence * 100`); the sources are numbers. -/
def ratOf (v : JSVal) : ℚ :=
  match v with
  | .vnum q => q
  | _ => 0

/-- One Google-Vision-seeded fallback person (index.ts 750-761). -/
def googleFallbackPerson (i : Nat) (googleFace : JSVal) : JSVal :=
  .vobj
    [ ("personIndex", .vnum ((i : ℚ) + 1)),
      ("personLabel", .vstr ("Person " ++ toString (i + 1))),
      ("boundingBox", getField googleFace "boundingPoly"),
      ("multiServiceData", .vobj
        [ ("google_vision", googleFace), ("facepp", .vnull),
          ("azure_face", .vnull), ("aws_rekognition", .vnull) ]),
      ("integratedAnalysis", .vobj
        [ ("emotions", .vobj
            [ ("primary", getField googleFace "joyLikelihood"),
              ("detailed", .vobj
                [ ("joy", getField googleFace "joyLikelihood"),
                  ("sorrow", getField googleFace "sorrowLikelihood") ]) ]),
          ("psychological_indicators", .vobj
            [ ("confidence_level", .vnum (ratOf (getField googleFace "detectionConfidence") * 100)),
              ("emotional_stability", .vnum 50),
              ("social_openness", .vnum 50) ]) ]) ]

/-- The fallback block at index.ts 728-764 (entered only when no Face++
person was seeded): try Azure, else Google Vision; AWS Rekognition does
not appear here. -/
def fallbackSeeds (ar : JSVal) (maxPeople : Nat) : List JSVal :=
  if 0 < (azureArray ar).length then
    ((azureArray ar).take maxPeople).mapIdx azureFallbackPerson
  else if truthy (getField ar "google_vision")
      && truthy (getField (getField ar "google_vision") "faceAnnotations") then
    ((googleAnnotations ar).take maxPeople).mapIdx googleFallbackPerson
  else []

/-- `!!(slot && !slot.error)` (index.ts 769-772). -/
def serviceOk (slot : JSVal) : Bool :=
  truthy slot && !truthy (getField slot "error")

/-- `total_services_used` (index.ts 773): count of truthy, non-error
entries of the results object. -/
def totalServicesUsed (ar : JSVal) : ℚ :=
  match ar with
  | .vobj fields =>
    ((fields.filter (fun p => truthy p.2 && !truthy (getField p.2 "error"))).length : ℚ)
  | _ => 0

/-- The per-person `serviceStatus` stamp (index.ts 767-775). -/
def serviceStatusVal (ar : JSVal) : JSVal :=
  .vobj
    [ ("facepp_available", .vbool (serviceOk (getField ar "facepp"))),
      ("azure_face_available", .vbool (serviceOk (getField ar "azure_face"))),
      ("google_vision_available", .vbool (serviceOk (getField ar "google_vision"))),
      ("aws_rekognition_available", .vbool (serviceOk (getField ar "aws_rekognition"))),
      ("total_services_used", .vnum (totalServicesUsed ar)) ]

/-- `integrateMultiServiceResults` (index.ts 635-778). -/
def integrateMultiServiceResults (ar : JSVal) (maxPeople : Nat) : List JSVal :=
  let seeded := faceppSeeds ar maxPeople
  let enhanced := googleEnhanceStep ar (azureEnhanceStep ar seeded)
  let people := if enhanced.length = 0 then fallbackSeeds ar maxPeople else enhanced
  people.map (fun person => setField person "serviceStatus" (serviceStatusVal ar))

/-- The `analysisResults` accumulator of
`comprehensiveMultiServiceFaceAnalysis` (index.ts 481-487) after the
service promises settled, with its original key order. -/
def mkAnalysisResults (azure facepp google aws : JSVal) : JSVal :=
  .vobj
    [ ("azure_face", azure), ("facepp", facepp), ("google_vision", google),
      ("aws_rekognition", aws), ("people_detected", .vnum 0) ]

/-! ## C2: per-person validation failures in multi-subject mode -/

/-- Parse table standing for the host `JSON.parse` in the C2 scenario: the
model answered with a bare empty object. -/
def c2Parse : String → Option JSVal :=
  fun s => if s = "\x7b\x7d" then some (.vobj []) else none

/-! ## C3: HTTP behavior of `/api/analyze` on validation failure -/

/-- Parse table for the C3 scenario: Anthropic returned a JSON object that
lacks the core assessment. -/
def c3Parse : String → Option JSVal :=
  fun s => if s = "[anthropic-incomplete]"
           then some (.vobj [("detailed_analysis", .vobj [])]) else none

/-- The synthesis run of the C3 scenario: only the Anthropic call
fulfilled, its payload parses, validation fails. -/
def c3Synthesis : Except String JSVal :=
  singleSubjectSynthesis (.fulfilled ⟨[⟨"text", "[anthropic-incomplete]"⟩]⟩)
    .rejected .rejected c3Parse

/-! ## C4: settle-all join and canonical-result preference order -/

/-- Parse table for the C4 scenario: the Perplexity payload parses to a
fully answered assessment. -/
def c4Parse : String → Option JSVal :=
  fun s => if s = "[perplexity-json]" then some fullAssessment else none

/-! ## C5: provider-promotion order in the integrator -/

/-- A face object of the shape `analyzeFaceWithRekognition` produces
(index.ts 3912-3969). -/
def awsFaceDemo : JSVal :=
  .vobj
    [ ("personLabel", .vstr "Person 1"),
      ("positionInImage", .vnum 1),
      ("gender", .vstr "unknown"),
      ("dominant", .vbool true) ]

/-- An Azure Face detection result object. -/
def azureFaceDemo : JSVal :=
  .vobj
    [ ("faceRectangle", .vobj
        [ ("left", .vnum 10), ("top", .vnum 10),
          ("width", .vnum 50), ("height", .vnum 50) ]),
      ("faceAttributes", .vobj
        [ ("gender", .vstr "female"), ("age", .vnum 30), ("smile", .vnum 1) ]) ]

/-! ## Credential configuration and network-call fan-out
(module-scope credential reads, index.ts 111-252) -/

/-- Presence of each credential/config environment variable read at module
scope (index.ts 118-128, 180-214, 219, 250); the `openaiKey` etc. flags
also stand for the non-nullness of the corresponding client object. -/
structure Config where
  gladiaKey : Bool
  assemblyaiKey : Bool
  deepgramKey : Bool
  faceppKey : Bool
  faceppSecret : Bool
  azureFaceKey : Bool
  azureFaceEndpoint : Bool
  googleVisionKey : Bool
  videoIndexerKey : Bool
  videoIndexerLocation : Bool
  videoIndexerAccountId : Bool
  deepseekKey : Bool
  openaiKey : Bool
  anthropicKey : Bool
  perplexityKey : Bool
  awsAccessKey : Bool
  awsSecretKey : Bool
deriving Repr, DecidableEq

/-- The environment with no credential configured. -/
def noCredentials : Config :=
  ⟨false, false, false, false, false, false, false, false, false,
   false, false, false, false, false, false, false, false⟩

/-- One outbound network call a provider adapter can issue. -/
inductive NetCall where
  | azureFaceDetect
  | faceppDetect
  | googleVisionAnnotate
  | awsRekognitionDetect
  | gladiaTranscribe
  | assemblyaiTranscribe
  | deepgramTranscribe
  | whisperTranscribe
  | azureVideoIndexer
  | openaiChat
  | anthropicMessages
  | perplexityChat
deriving Repr, DecidableEq

/-- The credential/config a provider call requires. -/
def credentialPresent (cfg : Config) : NetCall → Bool
  | .azureFaceDetect => cfg.azureFaceKey && cfg.azureFaceEndpoint
  | .faceppDetect => cfg.faceppKey && cfg.faceppSecret
  | .googleVisionAnnotate => cfg.googleVisionKey
  | .awsRekognitionDetect => cfg.awsAccessKey && cfg.awsSecretKey
  | .gladiaTranscribe => cfg.gladiaKey
  | .assemblyaiTranscribe => cfg.assemblyaiKey
  | .deepgramTranscribe => cfg.deepgramKey
  | .whisperTranscribe => cfg.openaiKey
  | .azureVideoIndexer =>
      cfg.videoIndexerKey && cfg.videoIndexerLocation && cfg.videoIndexerAccountId
  | .openaiChat => cfg.openaiKey
  | .anthropicMessages => cfg.anthropicKey
  | .perplexityChat => cfg.perplexityKey

/-- Network calls attempted by the sequential fallback `analyzeFaces`
(index.ts 3536-3983): Azure, Face++ and Google Vision each gated on their
credentials and on every earlier branch having failed to return
(`azureOk` etc.: that provider's call found faces); the final AWS branch
(index.ts 3890-3901) calls `rekognition.send` with **no** credential
guard. -/
def analyzeFacesCalls (cfg : Config) (azureOk faceppOk googleOk : Bool) : List NetCall :=
  (if cfg.azureFaceKey && cfg.azureFaceEndpoint then [NetCall.azureFaceDetect] else []) ++
  (if !(cfg.azureFaceKey && cfg.azureFaceEndpoint && azureOk)
      && (cfg.faceppKey && cfg.faceppSecret) then [NetCall.faceppDetect] else []) ++
  (if !(cfg.azureFaceKey && cfg.azureFaceEndpoint && azureOk)
      && !(cfg.faceppKey && cfg.faceppSecret && faceppOk)
      && cfg.googleVisionKey then [NetCall.googleVisionAnnotate] else []) ++
  (if !(cfg.azureFaceKey && cfg.azureFaceEndpoint && azureOk)
      && !(cfg.faceppKey && cfg.faceppSecret && faceppOk)
      && !(cfg.googleVisionKey && googleOk) then [NetCall.awsRekognitionDetect] else [])

/-- Network calls attempted by `comprehensiveMultiServiceFaceAnalysis`
(index.ts 490-622): three credential-gated parallel branches, plus the
AWS branch pushed **unconditionally** at index.ts 607-619, which delegates
to `analyzeFaces`. -/
def comprehensiveFaceCalls (cfg : Config) (azureOk faceppOk googleOk : Bool) : List NetCall :=
  (if cfg.azureFaceKey && cfg.azureFaceEndpoint then [NetCall.azureFaceDetect] else []) ++
  (if cfg.faceppKey && cfg.faceppSecret then [NetCall.faceppDetect] else []) ++
  (if cfg.googleVisionKey then [NetCall.googleVisionAnnotate] else []) ++
  analyzeFacesCalls cfg azureOk faceppOk googleOk

/-- The optional Azure Video Indexer call (index.ts 2774-2786). -/
def videoIndexerCalls (cfg : Config) : List NetCall :=
  if cfg.videoIndexerKey && cfg.videoIndexerLocation && cfg.videoIndexerAccountId then
    [NetCall.azureVideoIndexer]
  else []

/-- `deepseek || openai || anthropic || PERPLEXITY_API_KEY`
(index.ts 4030). -/
def llmAvailable (cfg : Config) : Bool :=
  cfg.deepseekKey || cfg.openaiKey || cfg.anthropicKey || cfg.perplexityKey

/-- LLM calls attempted by the single-subject branch of
`getEnhancedPersonalityInsights` (index.ts 4028-4054 gate, 4610-4666
fan-out): nothing at all when no client is configured; otherwise one call
per configured provider (an unconfigured provider contributes a
pre-rejected promise, not a call — index.ts 4634, 4653, 4665; and
`perplexity.query` itself throws before `fetch` when the key is absent,
index.ts 219-222). -/
def llmSynthesisCalls (cfg : Config) : List NetCall :=
  if !llmAvailable cfg then []
  else
    (if cfg.openaiKey then [NetCall.openaiChat] else []) ++
    (if cfg.anthropicKey then [NetCall.anthropicMessages] else []) ++
    (if cfg.perplexityKey then [NetCall.perplexityChat] else [])

/-! ## Audio transcription chain (`extractAudioTranscription`, index.ts 1093-1571) -/

/-- An utterance `{text, start, end, sentiment}` (`stop` models `end`). -/
structure Utterance where
  text : String
  start : ℚ
  stop : ℚ
  sentiment : String
deriving Repr, DecidableEq

/-- A word entry `{text, start, end, confidence}`. -/
structure WordEntry where
  text : String
  start : ℚ
  stop : ℚ
  confidence : ℚ
deriving Repr, DecidableEq

/-- The parsed `result.prediction` of a Gladia 200 response
(read at index.ts 1151-1207). -/
structure GladiaPrediction where
  transcription : String
  utterances : List Utterance
  segments : List Utterance
  words : List WordEntry
deriving Repr, DecidableEq

/-- A completed AssemblyAI transcript (read at index.ts 1277-1343):
`sentiment_analysis_results` carry millisecond timestamps. -/
structure AssemblyTranscript where
  text : String
  sentiments : List Utterance
  words : List WordEntry
deriving Repr, DecidableEq

/-- `result.results.channels[0].alternatives[0]` of a Deepgram response
(read at index.ts 1371-1430). -/
structure DeepgramAlternative where
  transcript : String
  confidence : ℚ
  words : List WordEntry
  paragraphs : List Utterance
  sentences : List Utterance
deriving Repr, DecidableEq

/-- A Whisper `verbose_json` response (read at index.ts 1455-1501). -/
structure WhisperResponse where
  text : String
  segments : List Utterance
  words : List WordEntry
deriving Repr, DecidableEq

/-- Gladia utterance construction (index.ts 1152-1181): provider
utterances, else segments, else a single utterance spanning the audio
(`end: audioDuration || 0` equals `audioDuration` in this model since
`0 || 0 = 0`). -/
def gladiaUtterances (p : GladiaPrediction) (audioDuration : ℚ) : List Utterance :=
  if 0 < p.utterances.length then
    p.utterances.map (fun u => { u with sentiment := "unknown" })
  else if 0 < p.segments.length then
    p.segments.map (fun s => { s with sentiment := "unknown" })
  else
    [⟨p.transcription, 0, audioDuration, "unknown"⟩]

/-- AssemblyAI utterance construction (index.ts 1281-1300): sentiment
segments (milliseconds scaled to seconds), else a single neutral
utterance. -/
def assemblyUtterances (t : AssemblyTranscript) (audioDuration : ℚ) : List Utterance :=
  if 0 < t.sentiments.length then
    t.sentiments.map (fun s => ⟨s.text, s.start / 1000, s.stop / 1000, s.sentiment⟩)
  else
    [⟨t.text, 0, audioDuration, "neutral"⟩]

/-- Deepgram utterance construction (index.ts 1387-1415): paragraphs, else
sentences, else a single utterance. -/
def deepgramUtterances (a : DeepgramAlternative) (audioDuration : ℚ) : List Utterance :=
  if 0 < a.paragraphs.length then
    a.paragraphs.map (fun u => { u with sentiment := "unknown" })
  else if 0 < a.sentences.length then
    a.sentences.map (fun u => { u with sentiment := "unknown" })
  else
    [⟨a.transcript, 0, audioDuration, "unknown"⟩]

/-- Whisper utterance construction (index.ts 1468-1487): segments, else a
single utterance. -/
def whisperUtterances (w : WhisperResponse) (audioDuration : ℚ) : List Utterance :=
  if 0 < w.segments.length then
    w.segments.map (fun u => { u with sentiment := "unknown" })
  else
    [⟨w.text, 0, audioDuration, "unknown"⟩]

/-- The HTTP outcome of each provider exchange: `none` models any failed
fetch, non-OK status, missing payload, or thrown error; `some` a parsed
success payload. -/
structure TranscriptionOutcomes where
  gladia : Option GladiaPrediction
  assembly : Option AssemblyTranscript
  deepgram : Option DeepgramAlternative
  whisper : Option WhisperResponse

/-- Projection of the value `extractAudioTranscription` returns:
`transcription`, whether a structured `transcriptionData` object is
present, its `utterances`, and `speechAnalysis.provider`. -/
structure TranscriptionFinal where
  transcription : String
  hasData : Bool
  utterances : List Utterance
  provider : String
deriving Repr, DecidableEq

/-- The Gladia branch (index.ts 1132-1217): attempted only with a key;
succeeds when the response parsed and `prediction.transcription` is
truthy. -/
def gladiaBranch (cfg : Config) (oc : TranscriptionOutcomes) (audioDuration : ℚ) :
    Option TranscriptionFinal :=
  if cfg.gladiaKey then
    match oc.gladia with
    | some p =>
      if p.transcription = "" then none
      else some ⟨p.transcription, true, gladiaUtterances p audioDuration, "gladia"⟩
    | none => none
  else none

/-- The AssemblyAI branch (index.ts 1219-1351): attempted only with a key
and when nothing succeeded yet. -/
def assemblyBranch (cfg : Config) (oc : TranscriptionOutcomes) (audioDuration : ℚ) :
    Option TranscriptionFinal :=
  if cfg.assemblyaiKey then
    match oc.assembly with
    | some t => some ⟨t.text, true, assemblyUtterances t audioDuration, "assemblyai"⟩
    | none => none
  else none

/-- The Deepgram branch (index.ts 1353-1437). -/
def deepgramBranch (cfg : Config) (oc : TranscriptionOutcomes) (audioDuration : ℚ) :
    Option TranscriptionFinal :=
  if cfg.deepgramKey then
    match oc.deepgram with
    | some a => some ⟨a.transcript, true, deepgramUtterances a audioDuration, "deepgram"⟩
    | none => none
  else none

/-- The Whisper fallback (index.ts 1439-1507): gated on the OpenAI
client. -/
def whisperBranch (cfg : Config) (oc : TranscriptionOutcomes) (audioDuration : ℚ) :
    Option TranscriptionFinal :=
  if cfg.openaiKey then
    match oc.whisper with
    | some w => some ⟨w.text, true, whisperUtterances w audioDuration, "openai_whisper"⟩
    | none => none
  else none

/-- The all-providers-failed return (index.ts 1512-1529): provider "none"
with an empty `transcriptionData.utterances`. -/
def noneFinal : TranscriptionFinal :=
  ⟨"Failed to transcribe audio. None of the transcription services were able to process this video.",
   true, [], "none"⟩

/-- The outer-catch return (index.ts 1559-1571): provider "error", with no
`transcriptionData` object at all. -/
def errorFinal : TranscriptionFinal :=
  ⟨"Failed to transcribe audio. Please try again with clearer audio or a different video.",
   false, [], "error"⟩

/-- `extractAudioTranscription` (index.ts 1093-1571), from audio
extraction (whose ffmpeg failure lands in the outer catch) through the
sequential provider chain. -/
def extractAudioTranscription (audioExtracted : Bool) (audioDuration : ℚ)
    (cfg : Config) (oc : TranscriptionOutcomes) : TranscriptionFinal :=
  if audioExtracted = false then errorFinal
  else
    match gladiaBranch cfg oc audioDuration with
    | some r => r
    | none =>
      match assemblyBranch cfg oc audioDuration with
      | some r => r
      | none =>
        match deepgramBranch cfg oc audioDuration with
        | some r => r
        | none =>
          match whisperBranch cfg oc audioDuration with
          | some r => r
          | none => noneFinal

/-- Network calls of the transcription chain, for the credential-gating
property: each branch's call happens exactly when its branch is reached
with its credential present. -/
def transcriptionCalls (cfg : Config) (oc : TranscriptionOutcomes) (d : ℚ) : List NetCall :=
  (if cfg.gladiaKey then [NetCall.gladiaTranscribe] else []) ++
  (if (gladiaBranch cfg oc d).isNone && cfg.assemblyaiKey then
    [NetCall.assemblyaiTranscribe] else []) ++
  (if (gladiaBranch cfg oc d).isNone && (assemblyBranch cfg oc d).isNone
      && cfg.deepgramKey then [NetCall.deepgramTranscribe] else []) ++
  (if (gladiaBranch cfg oc d).isNone && (assemblyBranch cfg oc d).isNone
      && (deepgramBranch cfg oc d).isNone && cfg.openaiKey then
    [NetCall.whisperTranscribe] else [])

/-! ## The no-LLM-providers gate and `/api/analyze/text` model selection -/

/-- The early-return fallback of `getEnhancedPersonalityInsights`
(index.ts 4032-4053). -/
def noProvidersFallback (peopleCount : ℚ) : JSVal :=
  .vobj
    [ ("peopleCount", .vnum peopleCount),
      ("individualProfiles", .varr [ .vobj
        [ ("summary", .vstr "API keys are required for detailed analysis. Please configure OpenAI, Anthropic, or Perplexity API keys."),
          ("detailed_analysis", .vobj
            [ ("personality_core", .vstr "API keys required for detailed analysis"),
              ("thought_patterns", .vstr "API keys required for detailed analysis"),
              ("cognitive_style", .vstr "API keys required for detailed analysis"),
              ("professional_insights", .vstr "API keys required for detailed analysis"),
              ("relationships", .vobj
                [ ("current_status", .vstr "Not available"),
                  ("parental_status", .vstr "Not available"),
                  ("ideal_partner", .vstr "Not available") ]),
              ("growth_areas", .vobj
                [ ("strengths", .varr [.vstr "Not available"]),
                  ("challenges", .varr [.vstr "Not available"]),
                  ("development_path", .vstr "Not available") ]) ]) ] ]) ]

/-- The gate at the top of `getEnhancedPersonalityInsights`
(index.ts 4028-4054): with no client configured, return the labeled
fallback (`peopleCount` from the array length, 1 otherwise) before any
call is attempted.  `faceCount = some n` models an array of n people,
`none` a single object. -/
def insightsNoProvidersGate (cfg : Config) (faceCount : Option Nat) : Option JSVal :=
  if !llmAvailable cfg then
    some (noProvidersFallback (match faceCount with | some n => (n : ℚ) | none => 1))
  else none

/-- Model selection of `/api/analyze/text` (index.ts 1611-1628): when the
selected model's client is missing, fall back OpenAI → Anthropic →
Perplexity; when none is available answer HTTP 503. -/
def textRouteModel (cfg : Config) (selectedModel : String) : Except Nat String :=
  if (selectedModel == "deepseek" && !cfg.deepseekKey)
      || (selectedModel == "openai" && !cfg.openaiKey)
      || (selectedModel == "anthropic" && !cfg.anthropicKey)
      || (selectedModel == "perplexity" && !cfg.perplexityKey) then
    if cfg.openaiKey then .ok "openai"
    else if cfg.anthropicKey then .ok "anthropic"
    else if cfg.perplexityKey then .ok "perplexity"
    else .error 503
  else .ok selectedModel

/-- A run in which only Gladia is configured and returns a transcript with
no utterances and no segments. -/
def gladiaOnlyOutcome : TranscriptionOutcomes :=
  ⟨some ⟨"hello there world", [], [], []⟩, none, none, none⟩

/-! ## Theorems -/

theorem checkField_of_stringLike (v : JSVal) (h : isStringLike v = true) :
    checkField v = .ok (fieldMissing v) := by
  cases v with
  | vstr s =>
    by_cases hs : s = ""
    · subst hs; rfl
    · simp [checkField, truthy, fieldMissing, hs]
  | vundefined => rfl
  | vnull => rfl
  | vbool b => simp [isStringLike] at h
  | vnum q => simp [isStringLike] at h
  | varr es => simp [isStringLike] at h
  | vobj fs => simp [isStringLike] at h

theorem collectMissing_of_stringLike (qs : List String) (core : JSVal)
    (h : ∀ q ∈ qs, isStringLike (getField core q) = true) :
    collectMissing qs core = .ok (qs.filter (fun q => fieldMissing (getField core q))) := by
  induction qs with
  | nil => rfl
  | cons q qs ih =>
    have hq : isStringLike (getField core q) = true := h q (List.mem_cons_self q qs)
    have hrest : ∀ r ∈ qs, isStringLike (getField core r) = true :=
      fun r hr => h r (List.mem_cons_of_mem q hr)
    simp only [collectMissing, checkField_of_stringLike _ hq, ih hrest,
      List.filter_cons, Except.bind]
    by_cases hm : fieldMissing (getField core q) = true
    · simp [hm, Bind.bind, Except.bind]; rfl
    · simp only [Bool.not_eq_true] at hm
      simp [hm, Bind.bind, Except.bind]; rfl

theorem validateCoreAssessment_eq (assessment : JSVal) (label : String)
    (hCore : truthy (coreSection assessment) = true)
    (hS : ∀ q ∈ coreQuestions, isStringLike (getField (coreSection assessment) q) = true) :
    validateCoreAssessment assessment label =
      (if (specMissingFields assessment).isEmpty then .ok true
       else .error (.incomplete label (specMissingFields assessment))) := by
  unfold validateCoreAssessment
  rw [hCore]
  simp only [Bool.true_eq_false, if_false]
  rw [collectMissing_of_stringLike coreQuestions (coreSection assessment) hS]
  rfl

/-- C1: for an assessment whose core section is present and whose required
fields are each absent, null, or a string, the validator reports exactly the
fields that are absent, null, or of trimmed length below 10; it fails with
that list when it is non-empty and returns `true` when it is empty. -/
theorem validateCoreAssessment_threshold (assessment : JSVal) (label : String)
    (hCore : truthy (coreSection assessment) = true)
    (hS : ∀ q ∈ coreQuestions, isStringLike (getField (coreSection assessment) q) = true) :
    (∀ q ∈ coreQuestions,
      (fieldMissing (getField (coreSection assessment) q) = true ↔
        q ∈ specMissingFields assessment)) ∧
    (specMissingFields assessment = [] →
      validateCoreAssessment assessment label = .ok true) ∧
    (specMissingFields assessment ≠ [] →
      validateCoreAssessment assessment label =
        .error (.incomplete label (specMissingFields assessment))) := by
  refine ⟨?_, ?_, ?_⟩
  · intro q hq
    constructor
    · intro hm
      exact List.mem_filter.mpr ⟨hq, hm⟩
    · intro hmem
      exact (List.mem_filter.mp hmem).2
  · intro hempty
    rw [validateCoreAssessment_eq assessment label hCore hS, hempty]
    rfl
  · intro hne
    rw [validateCoreAssessment_eq assessment label hCore hS,
      if_neg (by simpa [List.isEmpty_iff] using hne)]

theorem validateCoreAssessment_threshold_witness :
    validateCoreAssessment fullAssessment "Subject" = .ok true ∧
    validateCoreAssessment partialAssessment "Person 1" =
      .error (.incomplete "Person 1" ["outlook", "consistency"]) := by
  constructor
  · exact (validateCoreAssessment_threshold fullAssessment "Subject"
      (by decide) (by decide)).2.1 (by decide)
  · have h := (validateCoreAssessment_threshold partialAssessment "Person 1"
      (by decide) (by decide)).2.2 (by decide)
    have h2 : specMissingFields partialAssessment = ["outlook", "consistency"] := by decide
    rw [h2] at h
    exact h

/-- C10: the validator is not total over parsed LLM JSON: a present, truthy,
non-string core field makes `coreAssessment[question].trim()` raise a
`TypeError` instead of passing validation or being reported missing. -/
theorem validateCoreAssessment_not_total :
    getField (coreSection nonStringAssessment) "core_motivation" = JSVal.vnum 5 ∧
    truthy (JSVal.vnum 5) = true ∧
    validateCoreAssessment nonStringAssessment "Subject" = .error .typeError := by
  refine ⟨rfl, by decide, ?_⟩
  rfl

/-- C2 counterexample: a per-person LLM response that parses but fails
validation is replaced inside `individualProfiles` by the minimal
placeholder profile (summary "Analysis of … could not be completed."), and
`multiPersonProfiles` returns normally — no failure or missing-field list
reaches the caller, contradicting the claim that an incomplete per-person
assessment is never silently replaced by placeholder text. -/
theorem multiPerson_incomplete_swallowed :
    validateCoreAssessment (JSVal.vobj []) "Person 1" =
      .error (.noCore "Person 1") ∧
    multiPersonProfiles [⟨"Person 1", JSVal.vnum 1, JSVal.vundefined, some ""⟩] c2Parse
      = [minimalPersonProfile "Person 1" (JSVal.vnum 1)] ∧
    getField (minimalPersonProfile "Person 1" (JSVal.vnum 1)) "summary"
      = JSVal.vstr "Analysis of Person 1 could not be completed." :=
  ⟨rfl, rfl, rfl⟩

/-- C2 (amended): in multi-subject mode the validator is run against each
per-person result, but a per-person result that fails validation is caught
by the per-person catch block and silently replaced by the minimal
placeholder profile in the returned profile set. -/
theorem multiPerson_validation_replaced_by_placeholder
    (p : PersonCall) (parse : String → Option JSVal)
    (content : String) (r : JSVal) (e : ValidationError)
    (hc : p.llmContent = some content)
    (hparse : parse (if content = "" then "\x7b\x7d" else content) = some r)
    (hval : validateCoreAssessment r p.personLabel = .error e) :
    analyzePersonProfile p parse = minimalPersonProfile p.personLabel p.positionInImage := by
  unfold analyzePersonProfile
  rw [hc]
  simp only [hparse, hval]

theorem multiPerson_validation_replaced_by_placeholder_witness :
    analyzePersonProfile ⟨"Person 1", JSVal.vnum 1, JSVal.vundefined, some ""⟩ c2Parse
      = minimalPersonProfile "Person 1" (JSVal.vnum 1) :=
  multiPerson_validation_replaced_by_placeholder
    ⟨"Person 1", JSVal.vnum 1, JSVal.vundefined, some ""⟩ c2Parse
    "" (JSVal.vobj []) (.noCore "Person 1") rfl rfl rfl

/-- C3 counterexample: when synthesis completes but the canonical
assessment fails validation, `/api/analyze` answers **400** (the route's
catch-all, index.ts 3082) with the synthesis-level message, which does not
contain "please regenerate the analysis" — not 500 with a regenerate
message as claimed. -/
theorem analyze_validation_failure_not_500 :
    c3Synthesis = .error singleSynthesisErrorMessage ∧
    analyzeRouteResponse c3Synthesis = (400, some singleSynthesisErrorMessage) ∧
    (400 : Nat) ≠ 500 ∧
    containsSubstr singleSynthesisErrorMessage "please regenerate the analysis" = false := by
  refine ⟨rfl, rfl, by decide, by decide⟩

/-- C3 (amended): for every `/api/analyze` request whose synthesis
completes but whose canonical assessment fails validation, the HTTP
response has status 400 and carries the message "Failed to generate
personality insights. Please try again." (the validator's own
"Please regenerate the analysis" message is replaced by the catch at
index.ts 4777-4780). -/
theorem analyze_validation_failure_http_400
    (aR : Settled AnthropicResp) (oR : Settled OpenAIResp)
    (pR : Settled PerplexityResp) (parse : String → Option JSVal)
    (e : ValidationError)
    (h : validateCoreAssessment (singleSubjectFinalInsights aR oR pR parse) "Subject"
          = .error e) :
    analyzeRouteResponse (singleSubjectSynthesis aR oR pR parse)
      = (400, some singleSynthesisErrorMessage) := by
  unfold singleSubjectSynthesis
  simp only [h]
  rfl

theorem analyze_validation_failure_http_400_witness :
    analyzeRouteResponse c3Synthesis = (400, some singleSynthesisErrorMessage) :=
  analyze_validation_failure_http_400
    (.fulfilled ⟨[⟨"text", "[anthropic-incomplete]"⟩]⟩) .rejected .rejected c3Parse
    (.noCore "Subject") rfl

/-- C4 counterexample: when only the Perplexity call succeeds — with a
payload that parses to a fully valid assessment — its result is NOT used:
the fulfilled-Perplexity branch dereferences the rejected Anthropic
outcome, so selection yields `{}`, the basic fallback is substituted, and
the whole synthesis fails, refuting "whenever at least one provider call
succeeds and parses, the highest-preference successful result is used". -/
theorem perplexity_only_success_dropped :
    c4Parse "[perplexity-json]" = some fullAssessment ∧
    validateCoreAssessment fullAssessment "Subject" = .ok true ∧
    selectFinalInsights .rejected .rejected (.fulfilled ⟨"[perplexity-json]"⟩) c4Parse
      = .vobj [] ∧
    singleSubjectSynthesis .rejected .rejected (.fulfilled ⟨"[perplexity-json]"⟩) c4Parse
      = .error singleSynthesisErrorMessage := by
  refine ⟨rfl, ?_, rfl, ?_⟩
  · rw [validateCoreAssessment_eq fullAssessment "Subject" (by decide) (by decide),
      show (specMissingFields fullAssessment).isEmpty = true by decide]
    rfl
  · rfl

/-- C4 (amended): the three LLM calls are joined with `Promise.allSettled`,
and the canonical result is picked by an else-if chain on settlement
status: a fulfilled Anthropic response with parseable content is always
used; failing that, a fulfilled OpenAI response with parseable content is
used; when both rejected the selection is the empty object regardless of
the Perplexity outcome, so a Perplexity-only success is never used. -/
theorem llm_selection_preference (parse : String → Option JSVal) :
    (∀ (a : AnthropicResp) (c : ContentBlock) (rest : List ContentBlock) (v : JSVal)
       (oR : Settled OpenAIResp) (pR : Settled PerplexityResp),
      a.content = c :: rest →
      parse (if c.text = "" then "\x7b\x7d" else c.text) = some v →
      selectFinalInsights (.fulfilled a) oR pR parse = v) ∧
    (∀ (o : OpenAIResp) (s : String) (v : JSVal) (pR : Settled PerplexityResp),
      o.content = some s → s ≠ "" → parse s = some v →
      selectFinalInsights .rejected (.fulfilled o) pR parse = v) ∧
    (∀ (pR : Settled PerplexityResp),
      selectFinalInsights .rejected .rejected pR parse = .vobj []) := by
  refine ⟨?_, ?_, ?_⟩
  · intro a c rest v oR pR hcontent hparse
    obtain ⟨cs⟩ := a
    simp only [AnthropicResp.mk.injEq] at hcontent
    subst hcontent
    simp only [selectFinalInsights]
    rw [hparse]
  · intro o s v pR hcontent hs hparse
    obtain ⟨oc⟩ := o
    simp only [OpenAIResp.mk.injEq] at hcontent
    subst hcontent
    simp only [selectFinalInsights, if_neg hs]
    rw [hparse]
  · intro pR
    cases pR <;> rfl

theorem llm_selection_preference_witness :
    selectFinalInsights (.fulfilled ⟨[⟨"text", "[anthropic-incomplete]"⟩]⟩)
      (.fulfilled ⟨some "x"⟩) (.fulfilled ⟨"y"⟩) c3Parse
      = .vobj [("detailed_analysis", .vobj [])] ∧
    selectFinalInsights .rejected (.fulfilled ⟨some "[perplexity-json]"⟩)
      (.fulfilled ⟨"y"⟩) c4Parse = fullAssessment ∧
    selectFinalInsights .rejected .rejected (.fulfilled ⟨"[perplexity-json]"⟩) c4Parse
      = .vobj [] := by
  refine ⟨?_, ?_, ?_⟩
  · exact (llm_selection_preference c3Parse).1 ⟨[⟨"text", "[anthropic-incomplete]"⟩]⟩
      ⟨"text", "[anthropic-incomplete]"⟩ [] (.vobj [("detailed_analysis", .vobj [])])
      (.fulfilled ⟨some "x"⟩) (.fulfilled ⟨"y"⟩) rfl rfl
  · exact (llm_selection_preference c4Parse).2.1 ⟨some "[perplexity-json]"⟩
      "[perplexity-json]" fullAssessment (.fulfilled ⟨"y"⟩) rfl (by decide) rfl
  · exact (llm_selection_preference c4Parse).2.2 (.fulfilled ⟨"[perplexity-json]"⟩)

/-! ## C7: video segment clamping -/

/-- C7: the clamped duration is `min(d, T - s)`; a positive clamp is handed
to segment extraction, while a non-positive clamp makes the request throw
before any extraction, answered as HTTP 400 by the route's catch-all. -/
theorem video_segment_clamp (s d T : ℚ) :
    actualSegmentDuration s d T = mathMin d (T - s) ∧
    (0 < actualSegmentDuration s d T →
      videoSegmentStep s d T = .ok (mathMin d (T - s))) ∧
    (actualSegmentDuration s d T ≤ 0 →
      videoSegmentStep s d T = .error videoProcessingFailedMessage ∧
      analyzeRouteResponse (videoSegmentStep s d T)
        = (400, some videoProcessingFailedMessage)) := by
  refine ⟨rfl, ?_, ?_⟩
  · intro h
    simp only [videoSegmentStep]
    rw [if_neg (not_le.mpr h)]
    rfl
  · intro h
    have hstep : videoSegmentStep s d T = .error videoProcessingFailedMessage := by
      simp only [videoSegmentStep]
      rw [if_pos h]
    exact ⟨hstep, by rw [hstep]; rfl⟩

theorem video_segment_clamp_witness :
    videoSegmentStep 8 3 9 = .ok 1 ∧
    analyzeRouteResponse (videoSegmentStep 10 3 9)
      = (400, some videoProcessingFailedMessage) := by
  have h1 := (video_segment_clamp 8 3 9).2.1
    (by norm_num [actualSegmentDuration, mathMin])
  have h2 := (video_segment_clamp 10 3 9).2.2
    (by norm_num [actualSegmentDuration, mathMin])
  refine ⟨?_, h2.2⟩
  rw [h1]
  norm_num [mathMin]

/-- C5 counterexample: a run in which only AWS Rekognition returned a face.
The integrator returns **no** people: the fallback at index.ts 728-764
tries Azure and Google Vision only, so AWS Rekognition is never promoted
to primary and its faces never seed the IntegratedPersons. -/
theorem aws_faces_never_seed_people :
    (match getField (mkAnalysisResults .vnull .vnull .vnull (.varr [awsFaceDemo]))
        "aws_rekognition" with
     | .varr faces => faces.length
     | _ => 0) = 1 ∧
    integrateMultiServiceResults
      (mkAnalysisResults .vnull .vnull .vnull (.varr [awsFaceDemo])) 5 = [] :=
  ⟨rfl, rfl⟩

theorem azureEnhanceStep_nil (ar : JSVal) : azureEnhanceStep ar [] = [] := by
  simp [azureEnhanceStep, azureEnhance]

theorem googleEnhanceStep_nil (ar : JSVal) : googleEnhanceStep ar [] = [] := by
  simp [googleEnhanceStep, googleEnhance]

/-- C5 (amended): when Face++ seeded nobody, the integrator's people are
the fallback block's, whose preference order is Azure Face then Google
Vision; the AWS Rekognition slot never contributes people (replacing it by
`null` changes nothing), so when only AWS returned faces the integrator
returns the empty list. -/
theorem integrate_fallback_order (a f g w : JSVal) (maxPeople : Nat)
    (hf : faceppSeeds (mkAnalysisResults a f g w) maxPeople = []) :
    integrateMultiServiceResults (mkAnalysisResults a f g w) maxPeople
      = (fallbackSeeds (mkAnalysisResults a f g w) maxPeople).map
          (fun person => setField person "serviceStatus"
            (serviceStatusVal (mkAnalysisResults a f g w))) ∧
    fallbackSeeds (mkAnalysisResults a f g w) maxPeople
      = fallbackSeeds (mkAnalysisResults a f g JSVal.vnull) maxPeople ∧
    (∀ xs : List JSVal, a = .varr xs → 0 < xs.length →
      fallbackSeeds (mkAnalysisResults a f g w) maxPeople
        = (xs.take maxPeople).mapIdx azureFallbackPerson) ∧
    (azureArray (mkAnalysisResults a f g w) = [] →
      fallbackSeeds (mkAnalysisResults a f g w) maxPeople
        = (if truthy g && truthy (getField g "faceAnnotations") then
            ((googleAnnotations (mkAnalysisResults a f g w)).take maxPeople).mapIdx
              googleFallbackPerson
           else [])) := by
  refine ⟨?_, rfl, ?_, ?_⟩
  · simp [integrateMultiServiceResults, hf, azureEnhanceStep_nil, googleEnhanceStep_nil]
  · intro xs ha hlen
    subst ha
    have haz : azureArray (mkAnalysisResults (.varr xs) f g w) = xs := rfl
    unfold fallbackSeeds
    rw [haz, if_pos hlen]
  · intro haz
    unfold fallbackSeeds
    rw [haz, if_neg (by decide : ¬ 0 < ([] : List JSVal).length)]
    rfl

theorem integrate_fallback_order_witness :
    integrateMultiServiceResults
        (mkAnalysisResults (.varr [azureFaceDemo]) .vnull .vnull .vnull) 5
      = (fallbackSeeds (mkAnalysisResults (.varr [azureFaceDemo]) .vnull .vnull .vnull) 5).map
          (fun person => setField person "serviceStatus"
            (serviceStatusVal (mkAnalysisResults (.varr [azureFaceDemo]) .vnull .vnull .vnull))) ∧
    fallbackSeeds (mkAnalysisResults (.varr [azureFaceDemo]) .vnull .vnull .vnull) 5
      = ([azureFaceDemo].take 5).mapIdx azureFallbackPerson := by
  have h := integrate_fallback_order (.varr [azureFaceDemo]) .vnull .vnull .vnull 5 rfl
  exact ⟨h.1, h.2.2.1 [azureFaceDemo] rfl (by decide)⟩

/-! ## C6: no network call without credentials -/

theorem mem_if_singleton {α : Type} (p : Prop) [Decidable p] (x c : α) :
    c ∈ (if p then [x] else ([] : List α)) ↔ p ∧ c = x := by
  split <;> simp_all

/-- C6 counterexample: with no credential configured at all, the face
fan-out still issues the AWS Rekognition call — the branch at index.ts
607-619 (via `analyzeFaces`, 3890-3901) has no credential guard, so the
adapter's required AWS credentials being absent does not prevent the
network call. -/
theorem aws_call_without_credentials :
    NetCall.awsRekognitionDetect ∈ comprehensiveFaceCalls noCredentials false false false ∧
    credentialPresent noCredentials NetCall.awsRekognitionDetect = false :=
  ⟨by decide, rfl⟩

/-- C6 (amended): every provider adapter except the AWS Rekognition face
branch checks its credential before calling — any call in the face,
transcription, video-indexer or LLM fan-out other than `rekognition.send`
carries its credential — while the AWS Rekognition call is issued even
with zero credentials configured. -/
theorem credential_gating (cfg : Config) (azureOk faceppOk googleOk : Bool)
    (oc : TranscriptionOutcomes) (d : ℚ) :
    (∀ c ∈ comprehensiveFaceCalls cfg azureOk faceppOk googleOk,
      c = NetCall.awsRekognitionDetect ∨ credentialPresent cfg c = true) ∧
    (∀ c ∈ transcriptionCalls cfg oc d, credentialPresent cfg c = true) ∧
    (∀ c ∈ videoIndexerCalls cfg, credentialPresent cfg c = true) ∧
    (∀ c ∈ llmSynthesisCalls cfg, credentialPresent cfg c = true) ∧
    NetCall.awsRekognitionDetect ∈ comprehensiveFaceCalls noCredentials azureOk faceppOk googleOk := by
  refine ⟨?_, ?_, ?_, ?_, ?_⟩
  · intro c hc
    unfold comprehensiveFaceCalls analyzeFacesCalls at hc
    rcases List.mem_append.mp hc with h | h
    · rcases List.mem_append.mp h with h | h
      · rcases List.mem_append.mp h with h | h
        · obtain ⟨h1, rfl⟩ := (mem_if_singleton _ _ _).mp h
          exact Or.inr h1
        · obtain ⟨h1, rfl⟩ := (mem_if_singleton _ _ _).mp h
          exact Or.inr h1
      · obtain ⟨h1, rfl⟩ := (mem_if_singleton _ _ _).mp h
        exact Or.inr h1
    · rcases List.mem_append.mp h with h | h
      · rcases List.mem_append.mp h with h | h
        · rcases List.mem_append.mp h with h | h
          · obtain ⟨h1, rfl⟩ := (mem_if_singleton _ _ _).mp h
            exact Or.inr h1
          · obtain ⟨h1, rfl⟩ := (mem_if_singleton _ _ _).mp h
            exact Or.inr ((Bool.and_eq_true _ _).mp h1).2
        · obtain ⟨h1, rfl⟩ := (mem_if_singleton _ _ _).mp h
          exact Or.inr (((Bool.and_eq_true _ _).mp h1).2)
      · obtain ⟨h1, rfl⟩ := (mem_if_singleton _ _ _).mp h
        exact Or.inl rfl
  · intro c hc
    unfold transcriptionCalls at hc
    rcases List.mem_append.mp hc with h | h
    · rcases List.mem_append.mp h with h | h
      · rcases List.mem_append.mp h with h | h
        · obtain ⟨h1, rfl⟩ := (mem_if_singleton _ _ _).mp h
          exact h1
        · obtain ⟨h1, rfl⟩ := (mem_if_singleton _ _ _).mp h
          exact ((Bool.and_eq_true _ _).mp h1).2
      · obtain ⟨h1, rfl⟩ := (mem_if_singleton _ _ _).mp h
        exact (((Bool.and_eq_true _ _).mp h1).2)
    · obtain ⟨h1, rfl⟩ := (mem_if_singleton _ _ _).mp h
      exact (((Bool.and_eq_true _ _).mp h1).2)
  · intro c hc
    unfold videoIndexerCalls at hc
    obtain ⟨h1, rfl⟩ := (mem_if_singleton _ _ _).mp hc
    exact h1
  · intro c hc
    unfold llmSynthesisCalls at hc
    split at hc
    · exact absurd hc (List.not_mem_nil c)
    · rcases List.mem_append.mp hc with h | h
      · rcases List.mem_append.mp h with h | h
        · obtain ⟨h1, rfl⟩ := (mem_if_singleton _ _ _).mp h
          exact h1
        · obtain ⟨h1, rfl⟩ := (mem_if_singleton _ _ _).mp h
          exact h1
      · obtain ⟨h1, rfl⟩ := (mem_if_singleton _ _ _).mp h
        exact h1
  · cases azureOk <;> cases faceppOk <;> cases googleOk <;> decide

/-! ## C8: utterances of the transcription chain -/

theorem gladiaUtterances_ne_nil (p : GladiaPrediction) (d : ℚ) :
    gladiaUtterances p d ≠ [] := by
  unfold gladiaUtterances
  split_ifs with h1 h2
  · simp only [ne_eq, List.map_eq_nil_iff]
    exact List.length_pos.mp h1
  · simp only [ne_eq, List.map_eq_nil_iff]
    exact List.length_pos.mp h2
  · simp

theorem assemblyUtterances_ne_nil (t : AssemblyTranscript) (d : ℚ) :
    assemblyUtterances t d ≠ [] := by
  unfold assemblyUtterances
  split_ifs with h1
  · simp only [ne_eq, List.map_eq_nil_iff]
    exact List.length_pos.mp h1
  · simp

theorem deepgramUtterances_ne_nil (a : DeepgramAlternative) (d : ℚ) :
    deepgramUtterances a d ≠ [] := by
  unfold deepgramUtterances
  split_ifs with h1 h2
  · simp only [ne_eq, List.map_eq_nil_iff]
    exact List.length_pos.mp h1
  · simp only [ne_eq, List.map_eq_nil_iff]
    exact List.length_pos.mp h2
  · simp

theorem whisperUtterances_ne_nil (w : WhisperResponse) (d : ℚ) :
    whisperUtterances w d ≠ [] := by
  unfold whisperUtterances
  split_ifs with h1
  · simp only [ne_eq, List.map_eq_nil_iff]
    exact List.length_pos.mp h1
  · simp

theorem gladiaBranch_utterances (cfg : Config) (oc : TranscriptionOutcomes) (d : ℚ)
    (r : TranscriptionFinal) (h : gladiaBranch cfg oc d = some r) :
    r.utterances ≠ [] := by
  unfold gladiaBranch at h
  split at h
  · split at h
    · split at h
      · exact absurd h (by simp)
      · injection h with h'
        subst h'
        exact gladiaUtterances_ne_nil _ d
    · exact absurd h (by simp)
  · exact absurd h (by simp)

theorem assemblyBranch_utterances (cfg : Config) (oc : TranscriptionOutcomes) (d : ℚ)
    (r : TranscriptionFinal) (h : assemblyBranch cfg oc d = some r) :
    r.utterances ≠ [] := by
  unfold assemblyBranch at h
  split at h
  · split at h
    · injection h with h'
      subst h'
      exact assemblyUtterances_ne_nil _ d
    · exact absurd h (by simp)
  · exact absurd h (by simp)

theorem deepgramBranch_utterances (cfg : Config) (oc : TranscriptionOutcomes) (d : ℚ)
    (r : TranscriptionFinal) (h : deepgramBranch cfg oc d = some r) :
    r.utterances ≠ [] := by
  unfold deepgramBranch at h
  split at h
  · split at h
    · injection h with h'
      subst h'
      exact deepgramUtterances_ne_nil _ d
    · exact absurd h (by simp)
  · exact absurd h (by simp)

theorem whisperBranch_utterances (cfg : Config) (oc : TranscriptionOutcomes) (d : ℚ)
    (r : TranscriptionFinal) (h : whisperBranch cfg oc d = some r) :
    r.utterances ≠ [] := by
  unfold whisperBranch at h
  split at h
  · split at h
    · injection h with h'
      subst h'
      exact whisperUtterances_ne_nil _ d
    · exact absurd h (by simp)
  · exact absurd h (by simp)

/-- C8 counterexample: when the audio-extraction step fails, the outer
catch (index.ts 1559-1571) returns a result whose provider is "error" —
which is not "none" — with no `transcriptionData` and hence no
utterances, refuting the claim as universally stated over every result of
the chain. -/
theorem transcription_error_provider_empty_utterances :
    (extractAudioTranscription false 0 noCredentials ⟨none, none, none, none⟩).provider
      = "error" ∧
    ("error" : String) ≠ "none" ∧
    (extractAudioTranscription false 0 noCredentials ⟨none, none, none, none⟩).utterances
      = [] ∧
    (extractAudioTranscription false 0 noCredentials ⟨none, none, none, none⟩).hasData
      = false :=
  ⟨rfl, by decide, rfl, rfl⟩

/-- C8 (amended): every result of the transcription chain whose provider
is neither "none" nor "error" has non-empty utterances; each provider
branch that succeeds without segmentation data constructs the single
utterance spanning the whole audio. -/
theorem transcription_utterances_nonempty (audioExtracted : Bool) (d : ℚ)
    (cfg : Config) (oc : TranscriptionOutcomes)
    (hne : (extractAudioTranscription audioExtracted d cfg oc).provider ≠ "none")
    (her : (extractAudioTranscription audioExtracted d cfg oc).provider ≠ "error") :
    (extractAudioTranscription audioExtracted d cfg oc).utterances ≠ [] ∧
    (∀ p : GladiaPrediction, p.utterances = [] → p.segments = [] →
      gladiaUtterances p d = [⟨p.transcription, 0, d, "unknown"⟩]) ∧
    (∀ t : AssemblyTranscript, t.sentiments = [] →
      assemblyUtterances t d = [⟨t.text, 0, d, "neutral"⟩]) ∧
    (∀ a : DeepgramAlternative, a.paragraphs = [] → a.sentences = [] →
      deepgramUtterances a d = [⟨a.transcript, 0, d, "unknown"⟩]) ∧
    (∀ w : WhisperResponse, w.segments = [] →
      whisperUtterances w d = [⟨w.text, 0, d, "unknown"⟩]) := by
  refine ⟨?_, ?_, ?_, ?_, ?_⟩
  · cases audioExtracted with
    | false => exact absurd rfl her
    | true =>
      have hrw : extractAudioTranscription true d cfg oc =
        (match gladiaBranch cfg oc d with
         | some r => r
         | none =>
           match assemblyBranch cfg oc d with
           | some r => r
           | none =>
             match deepgramBranch cfg oc d with
             | some r => r
             | none =>
               match whisperBranch cfg oc d with
               | some r => r
               | none => noneFinal) := rfl
      rw [hrw] at hne ⊢
      cases hg : gladiaBranch cfg oc d with
      | some r => exact gladiaBranch_utterances cfg oc d r hg
      | none =>
        rw [hg] at hne
        cases ha : assemblyBranch cfg oc d with
        | some r => exact assemblyBranch_utterances cfg oc d r ha
        | none =>
          rw [ha] at hne
          cases hdg : deepgramBranch cfg oc d with
          | some r => exact deepgramBranch_utterances cfg oc d r hdg
          | none =>
            rw [hdg] at hne
            cases hw : whisperBranch cfg oc d with
            | some r => exact whisperBranch_utterances cfg oc d r hw
            | none =>
              rw [hw] at hne
              exact absurd rfl hne
  · intro p h1 h2
    unfold gladiaUtterances
    rw [h1, h2]
    rw [if_neg (by decide), if_neg (by decide)]
  · intro t h1
    unfold assemblyUtterances
    rw [h1, if_neg (by decide)]
  · intro a h1 h2
    unfold deepgramUtterances
    rw [h1, h2]
    rw [if_neg (by decide), if_neg (by decide)]
  · intro w h1
    unfold whisperUtterances
    rw [h1, if_neg (by decide)]

theorem transcription_utterances_nonempty_witness :
    (extractAudioTranscription true 3 { noCredentials with gladiaKey := true }
      gladiaOnlyOutcome).provider = "gladia" ∧
    (extractAudioTranscription true 3 { noCredentials with gladiaKey := true }
      gladiaOnlyOutcome).utterances ≠ [] := by
  refine ⟨rfl, ?_⟩
  exact (transcription_utterances_nonempty true 3
    { noCredentials with gladiaKey := true } gladiaOnlyOutcome
    (by decide) (by decide)).1

/-! ## C9: zero configured LLM adapters -/

/-- C9: with no DeepSeek, OpenAI, Anthropic, or Perplexity credential, the
orchestrator short-circuits to the labeled no-providers fallback and no
LLM network call is attempted; `/api/analyze/text` answers HTTP 503 for
every selectable model. -/
theorem no_llm_providers_short_circuit (cfg : Config) (faceCount : Option Nat)
    (m : String)
    (hd : cfg.deepseekKey = false) (ho : cfg.openaiKey = false)
    (ha : cfg.anthropicKey = false) (hp : cfg.perplexityKey = false)
    (hm : m = "deepseek" ∨ m = "openai" ∨ m = "anthropic" ∨ m = "perplexity") :
    llmSynthesisCalls cfg = [] ∧
    insightsNoProvidersGate cfg faceCount
      = some (noProvidersFallback
          (match faceCount with | some n => (n : ℚ) | none => 1)) ∧
    textRouteModel cfg m = .error 503 := by
  have hAvail : llmAvailable cfg = false := by
    simp [llmAvailable, hd, ho, ha, hp]
  refine ⟨?_, ?_, ?_⟩
  · simp [llmSynthesisCalls, hAvail]
  · simp [insightsNoProvidersGate, hAvail]
  · rcases hm with rfl | rfl | rfl | rfl <;>
      simp [textRouteModel, hd, ho, ha, hp]

theorem no_llm_providers_short_circuit_witness :
    llmSynthesisCalls noCredentials = [] ∧
    insightsNoProvidersGate noCredentials none = some (noProvidersFallback 1) ∧
    textRouteModel noCredentials "deepseek" = .error 503 :=
  no_llm_providers_short_circuit noCredentials none "deepseek"
    rfl rfl rfl rfl (Or.inl rfl)

end PhotoAnalysis
